import Mathlib

/-!
# Verification of the TikTok Shop ID extractor (`src/app.py`)

A shallow embedding of the identifier-resolution logic of
`extract_and_fill_tiktok_ids` (the first script version in `src/app.py`,
lines 21–141), together with proofs of the specification claims.

Strings are modelled as `List Char` (the `.data` field of Lean strings).
The two network fetches are modelled as explicit `Option` inputs:
`none` stands for a `requests.RequestException` being raised by the
corresponding `session.get` (or `raise_for_status`), `some s` for a
successful fetch returning `s`.
-/

set_option maxRecDepth 20000

namespace TikTokExtractor

/-- Python's `\s` character class, restricted to its ASCII members
(space, tab, newline, carriage return, vertical tab, form feed);
the HTML scanned by the script is ASCII in the relevant places. -/
def pyIsSpace (c : Char) : Bool :=
  c = ' ' || c = '\t' || c = '\n' || c = '\r' || c = '\x0b' || c = '\x0c'

/-- Python truthiness of an optional string: `None` and `""` are falsy. -/
def pyTruthy : Option (List Char) → Bool
  | none => false
  | some s => !s.isEmpty

/-- Substring test: `occursB pat l` is true iff the literal `pat` occurs as
a contiguous substring of `l` (Python `pat in l` for strings). -/
def occursB (pat : List Char) : List Char → Bool
  | [] => pat.isEmpty
  | c :: rest => pat.isPrefixOf (c :: rest) || occursB pat rest

/-- Embedding of `re.search(lit + r'(\d+)', s)` for a literal `lit` with no
regex metacharacters: scan positions left to right; at the first position
where `lit` matches and is followed by at least one digit, return the
maximal digit run (the group).  Used for `/product/(\d+)`,
`product_id=(\d+)` and `sku_id=(\d+)` on the resolved URL. -/
def searchLitDigits (lit : List Char) : List Char → Option (List Char)
  | [] => none
  | c :: rest =>
    if lit.isPrefixOf (c :: rest) then
      if (((c :: rest).drop lit.length).takeWhile Char.isDigit).isEmpty then
        searchLitDigits lit rest
      else some (((c :: rest).drop lit.length).takeWhile Char.isDigit)
    else searchLitDigits lit rest

/-- Demand one specific character and consume it. -/
def expectChar (ch : Char) : List Char → Option (List Char)
  | [] => none
  | c :: rest => if c = ch then some rest else none

/-- After the literal `sku_id"` has been consumed, match the rest of the
pattern `\s*:\s*"(\d+)"`: optional whitespace, a colon, optional
whitespace, then a quoted nonempty digit run.  Returns the digit group
and the remainder of the text after the closing quote. -/
def matchTail (r1 : List Char) : Option (List Char × List Char) := do
  let r3 ← expectChar ':' (r1.dropWhile pyIsSpace)
  let r5 ← expectChar '\"' (r3.dropWhile pyIsSpace)
  if (r5.takeWhile Char.isDigit).isEmpty then none
  else do
    let r6 ← expectChar '\"' (r5.dropWhile Char.isDigit)
    pure (r5.takeWhile Char.isDigit, r6)

/-- One attempt of the regex `sku_id"\s*:\s*"(\d+)"` at the current
position: the literal `sku_id"` followed by `matchTail`. -/
def matchSkuAt (l : List Char) : Option (List Char × List Char) :=
  if ("sku_id\"").data.isPrefixOf l then matchTail (l.drop ("sku_id\"").data.length)
  else none

/-- Fuelled scanner for `re.findall(r'sku_id"\s*:\s*"(\d+)"', text)`:
non-overlapping left-to-right matches; after a match the scan resumes
right after it, otherwise it advances one character.  Each successful
match consumes at least one character, so fuel `text.length` (as used by
`findAllSku`) never runs out. -/
def findAllSkuFuel : Nat → List Char → List (List Char)
  | _, [] => []
  | 0, _ :: _ => []
  | n + 1, c :: rest =>
    match matchSkuAt (c :: rest) with
    | some (ds, rem) => ds :: findAllSkuFuel n rem
    | none => findAllSkuFuel n rest

/-- Embedding of `re.findall(r'sku_id"\s*:\s*"(\d+)"', text)`
(src/app.py lines 66–67). -/
def findAllSku (l : List Char) : List (List Char) :=
  findAllSkuFuel l.length l

/-- Fuelled embedding of Python `str.replace(pat, repl)` for a nonempty
`pat`: scan left to right, replacing every non-overlapping occurrence,
never rescanning replaced text.  Each step consumes at least one
character, so fuel `l.length` (as used by `pyReplace`) never runs out. -/
def pyReplaceFuel (pat repl : List Char) : Nat → List Char → List Char
  | _, [] => []
  | 0, c :: rest => c :: rest
  | n + 1, c :: rest =>
    if ¬pat.isEmpty ∧ pat.isPrefixOf (c :: rest) then
      repl ++ pyReplaceFuel pat repl n ((c :: rest).drop pat.length)
    else
      c :: pyReplaceFuel pat repl n rest

/-- Python `l.replace(pat, repl)` (for the nonempty patterns used by the
script). -/
def pyReplace (l pat repl : List Char) : List Char :=
  pyReplaceFuel pat repl l.length l

/-- The placeholder `sku_id=[]` of the checkout template. -/
def skuSlot : List Char := ("sku_id=[]").data

/-- The placeholder `product_id=[]` of the checkout template. -/
def productSlot : List Char := ("product_id=[]").data

/-- The fixed checkout URL template (src/app.py line 21).  Note that the
quantity and the seller identifier are literal constants of the template. -/
def checkout_url_template : List Char :=
  ("https://www.tiktok.com/view/fe_tiktok_ecommerce_in_web/order_submit/index.html?enter_from=product_card&enter_method=product_card&sku_id=[]&product_id=[]&quantity=1&seller_id=7495316114727995400").data

/-- Line 96/103: `checkout_url_template.replace('sku_id=[]', f'sku_id=\x7bsku_id\x7d').replace('product_id=[]', f'product_id=\x7bproduct_id\x7d')`. -/
def fillMain (sku_id product_id : List Char) : List Char :=
  pyReplace (pyReplace checkout_url_template skuSlot (("sku_id=").data ++ sku_id))
    productSlot (("product_id=").data ++ product_id)

/-- Lines 115 and 135: the "Partially Filled Checkout URL", in which the
`sku_id` placeholder is also filled with the product id:
`checkout_url_template.replace('product_id=[]', f'product_id=\x7bproduct_id\x7d').replace('sku_id=[]', f'sku_id=\x7bproduct_id\x7d')`. -/
def fillFallback (product_id : List Char) : List Char :=
  pyReplace (pyReplace checkout_url_template productSlot (("product_id=").data ++ product_id))
    skuSlot (("sku_id=").data ++ product_id)

/-- Decidable check that no match of `pat` can start inside `A` when `A` is
followed by `B`. -/
def noStartB (pat B : List Char) : List Char → Bool
  | [] => true
  | c :: rest => !pat.isPrefixOf ((c :: rest) ++ B) && noStartB pat B rest

/-- The part of the checkout template before the `sku_id=[]` placeholder. -/
def templateHead : List Char :=
  ("https://www.tiktok.com/view/fe_tiktok_ecommerce_in_web/order_submit/index.html?enter_from=product_card&enter_method=product_card&").data

/-- The constant part of the checkout template after the `product_id=[]`
placeholder: the hardcoded quantity and seller id. -/
def templateTail : List Char := ("&quantity=1&seller_id=7495316114727995400").data

/-- Normal form of every checkout URL the script produces: the constant
head, then `sku_id=` and a SKU value, then `&product_id=` and a product
value, then the constant tail. -/
def filledUrlNF (s p : List Char) : List Char :=
  templateHead ++ (("sku_id=").data ++ (s ++ (("&product_id=").data ++ (p ++ templateTail))))

/-- Lines 44–51: `re.search(r'/product/(\d+)', final_url)` first, else
`re.search(r'product_id=(\d+)', final_url)`, else `None`. -/
def resolve_product_id (url : List Char) : Option (List Char) :=
  match searchLitDigits ("/product/").data url with
  | some v => some v
  | none => searchLitDigits ("product_id=").data url

/-- Lines 54–57: `re.search(r'sku_id=(\d+)', final_url)`. -/
def sku_id_url (url : List Char) : Option (List Char) :=
  searchLitDigits ("sku_id=").data url

/-- Lines 66–69: all quoted-digit `sku_id` matches of the HTML, in match
order, with the URL-supplied SKU appended last when it is truthy and not
already in the list. -/
def resolve_sku_ids (url html : List Char) : List (List Char) :=
  match sku_id_url url with
  | some v =>
    if ¬v.isEmpty ∧ v ∉ findAllSku html then findAllSku html ++ [v] else findAllSku html
  | none => findAllSku html

/-- Line 72: `default_sku_id = sku_id_url or (sku_ids[0] if sku_ids else
product_id)` with Python truthiness. -/
def default_sku (url_sku : Option (List Char)) (sku_ids : List (List Char))
    (product_id : Option (List Char)) : Option (List Char) :=
  if pyTruthy url_sku then url_sku
  else
    match sku_ids with
    | x :: _ => some x
    | [] => product_id

/-- The observable outcome of one successful (non-crashing) run of
`extract_and_fill_tiktok_ids`: the four returned values plus the list of
checkout URLs rendered to the user, each paired with `true` iff it was
rendered under the "Partially Filled Checkout URL" label. -/
structure ResolveOutput where
  product_id : Option (List Char)
  sku_ids : List (List Char)
  filled_urls : Option (List (List Char))
  all_sku_ids : List (List Char)
  shown : List (List Char × Bool)
  deriving DecidableEq

/-- A run either returns a `ResolveOutput` or aborts with an uncaught
exception. -/
inductive RunResult where
  | crashed (err : String)
  | done (out : ResolveOutput)
  deriving DecidableEq

/-- Lines 123–141: the `except`-handler, reached when the page-content
fetch (the second `session.get`, or `raise_for_status`) raised, with
`product_id` and `sku_id_url` already computed from `final_url`. -/
def runFetchFail (final_url : List Char) : ResolveOutput :=
  let product_id := resolve_product_id final_url
  let sku_url := sku_id_url final_url
  let skuList := if pyTruthy sku_url then [sku_url.getD []] else []
  if pyTruthy product_id then
    let fallback_url := fillFallback (product_id.getD [])
    ⟨product_id, skuList, some [fallback_url], [], [(fallback_url, true)]⟩
  else
    ⟨product_id, skuList, some [], [], []⟩

/-- Lines 44–121: the successful path, with `final_url` the resolved URL
and `text` the fetched page content. -/
def runSuccess (final_url text : List Char) : ResolveOutput :=
  let product_id := resolve_product_id final_url
  let sku_url := sku_id_url final_url
  let sku_ids := resolve_sku_ids final_url text
  let default_sku_id := default_sku sku_url sku_ids product_id
  if pyTruthy product_id && !sku_ids.isEmpty then
    -- lines 93–100: one checkout URL per SKU id
    let urls := sku_ids.map (fun s => fillMain s (product_id.getD []))
    ⟨product_id, sku_ids, some urls, sku_ids, urls.map (fun u => (u, false))⟩
  else if pyTruthy product_id && pyTruthy default_sku_id then
    -- lines 101–111: single checkout URL from the default SKU id
    let u := fillMain (default_sku_id.getD []) (product_id.getD [])
    ⟨product_id, sku_ids, some [u], sku_ids, [(u, false)]⟩
  else if pyTruthy product_id then
    -- lines 112–119: fallback branch, "Partially Filled Checkout URL"
    let fallback_url := fillFallback (product_id.getD [])
    ⟨product_id, sku_ids, some [fallback_url], sku_ids, [(fallback_url, true)]⟩
  else
    -- lines 112–113 with no product id: no URL can be produced
    ⟨product_id, sku_ids, some [], sku_ids, []⟩

/-- Embedding of `extract_and_fill_tiktok_ids(short_url, checkout_url_template)`
(src/app.py lines 24–141).  `fetch1` is the result of the redirect-resolving
`session.get(short_url, ...)` (`some final_url` on success, `none` when it
raises `requests.RequestException`); `fetch2` is the result of
`session.get(final_url, ...)` plus `raise_for_status` (`some text` on
success, `none` when either raises).

When `fetch1` fails, the `except` handler (line 133) reads the local
`product_id`, which was never assigned, so the run aborts with an
`UnboundLocalError` instead of returning: this is modelled by `crashed`.
When `fetch2` fails, `product_id` and `sku_id_url` are already bound and
the handler returns the degraded result of line 141. -/
def extract_and_fill_tiktok_ids (short_url : List Char)
    (fetch1 fetch2 : Option (List Char)) : RunResult :=
  if short_url.isEmpty then
    -- line 25: `if not short_url: return None, [], None, []`
    .done ⟨none, [], none, [], []⟩
  else
    match fetch1 with
    | none => .crashed "UnboundLocalError: local variable product_id referenced before assignment"
    | some final_url =>
      match fetch2 with
      | none => .done (runFetchFail final_url)
      | some text => .done (runSuccess final_url text)

/-! ## Soundness of the scanners -/

/-- A successful `searchLitDigits` returns a nonempty all-digit group. -/
theorem searchLitDigits_sound {lit l ds : List Char}
    (h : searchLitDigits lit l = some ds) :
    ds ≠ [] ∧ ∀ c ∈ ds, c.isDigit = true := by
  induction l with
  | nil => simp [searchLitDigits] at h
  | cons c rest ih =>
    rw [searchLitDigits] at h
    split at h
    · split at h
      · exact ih h
      · rename_i hne
        injection h with h'
        subst h'
        refine ⟨?_, fun x hx => List.mem_takeWhile_imp hx⟩
        intro hnil
        rw [hnil] at hne
        exact hne rfl
    · exact ih h

/-- Consuming an expected character shortens the input by one. -/
theorem expectChar_sound {ch : Char} {l r : List Char}
    (h : expectChar ch l = some r) : l = ch :: r := by
  cases l with
  | nil => simp [expectChar] at h
  | cons c rest =>
    rw [expectChar] at h
    split at h
    · rename_i hc
      injection h with h'
      rw [hc, h']
    · exact absurd h (by simp)

/-- A successful tail match consumes at least one character and yields a
nonempty all-digit group. -/
theorem matchTail_sound {r1 ds rem : List Char}
    (h : matchTail r1 = some (ds, rem)) :
    rem.length < r1.length ∧ ds ≠ [] ∧ ∀ c ∈ ds, c.isDigit = true := by
  unfold matchTail at h
  simp only [bind, Option.bind_eq_some] at h
  obtain ⟨r3, h3, h'⟩ := h
  obtain ⟨r5, h5, h''⟩ := h'
  split at h''
  · exact absurd h'' (by simp)
  · rename_i hne
    simp only [bind, Option.bind_eq_some, pure, Option.some.injEq, Prod.mk.injEq] at h''
    obtain ⟨r6, h6, hds, hrem⟩ := h''
    have e3 : r1.dropWhile pyIsSpace = ':' :: r3 := expectChar_sound h3
    have e5 : r3.dropWhile pyIsSpace = '\"' :: r5 := expectChar_sound h5
    have e6 : r5.dropWhile Char.isDigit = '\"' :: r6 := expectChar_sound h6
    have l1 : r3.length < r1.length := by
      have := (List.dropWhile_suffix (l := r1) pyIsSpace).length_le
      rw [e3] at this; simp at this; omega
    have l2 : r5.length < r3.length := by
      have := (List.dropWhile_suffix (l := r3) pyIsSpace).length_le
      rw [e5] at this; simp at this; omega
    have l3 : r6.length < r5.length := by
      have := (List.dropWhile_suffix (l := r5) Char.isDigit).length_le
      rw [e6] at this; simp at this; omega
    subst hrem
    refine ⟨by omega, ?_, ?_⟩
    · intro hnil
      exact hne (by rw [hds, hnil]; rfl)
    · intro x hx
      rw [← hds] at hx
      exact List.mem_takeWhile_imp hx

/-- A successful `matchSkuAt` consumes at least one character and yields a
nonempty all-digit group. -/
theorem matchSkuAt_sound {l ds rem : List Char}
    (h : matchSkuAt l = some (ds, rem)) :
    rem.length < l.length ∧ ds ≠ [] ∧ ∀ c ∈ ds, c.isDigit = true := by
  unfold matchSkuAt at h
  by_cases hpre : (("sku_id\"").data).isPrefixOf l
  · rw [if_pos hpre] at h
    obtain ⟨hlt, hne, hdig⟩ := matchTail_sound h
    have hlen : ("sku_id\"").data.length ≤ l.length := by
      have := (List.isPrefixOf_iff_prefix.mp hpre).length_le
      exact this
    have h7 : ("sku_id\"").data.length = 7 := by decide
    have : (l.drop ("sku_id\"").data.length).length = l.length - 7 := by
      rw [List.length_drop, h7]
    refine ⟨by omega, hne, hdig⟩
  · rw [if_neg hpre] at h
    exact absurd h (by simp)

/-- With enough fuel, `findAllSkuFuel` does not depend on the exact fuel. -/
theorem findAllSkuFuel_congr :
    ∀ (n m : Nat) (l : List Char), l.length ≤ n → l.length ≤ m →
      findAllSkuFuel n l = findAllSkuFuel m l := by
  intro n
  induction n with
  | zero =>
    intro m l hn _
    cases l with
    | nil => cases m <;> rfl
    | cons c rest => simp at hn
  | succ n ih =>
    intro m l hn hm
    cases l with
    | nil => cases m <;> rfl
    | cons c rest =>
      cases m with
      | zero => simp at hm
      | succ m =>
        rw [findAllSkuFuel, findAllSkuFuel]
        cases hmt : matchSkuAt (c :: rest) with
        | none =>
          exact ih m rest (by simp at hn; omega) (by simp at hm; omega)
        | some p =>
          obtain ⟨ds, rem⟩ := p
          have hlt := (matchSkuAt_sound hmt).1
          simp only
          rw [ih m rem (by simp only [List.length_cons] at hn hlt; omega)
            (by simp only [List.length_cons] at hm hlt; omega)]

/-- Step equation of `findAllSku`. -/
theorem findAllSku_cons (c : Char) (rest : List Char) :
    findAllSku (c :: rest) =
      match matchSkuAt (c :: rest) with
      | some (ds, rem) => ds :: findAllSku rem
      | none => findAllSku rest := by
  unfold findAllSku
  rw [show (c :: rest).length = rest.length + 1 from rfl, findAllSkuFuel]
  cases hmt : matchSkuAt (c :: rest) with
  | none => rfl
  | some p =>
    obtain ⟨ds, rem⟩ := p
    have hlt := (matchSkuAt_sound hmt).1
    simp only
    rw [findAllSkuFuel_congr rest.length rem.length rem
      (by simp only [List.length_cons] at hlt; omega) (Nat.le_refl _)]

/-- Every group found in the HTML is a nonempty digit string. -/
theorem findAllSku_sound {l : List Char} :
    ∀ ds ∈ findAllSku l, ds ≠ [] ∧ ∀ c ∈ ds, c.isDigit = true := by
  suffices h : ∀ (n : Nat) (l : List Char), ∀ ds ∈ findAllSkuFuel n l,
      ds ≠ [] ∧ ∀ c ∈ ds, c.isDigit = true from h l.length l
  intro n
  induction n with
  | zero =>
    intro l ds hds
    cases l <;> simp [findAllSkuFuel] at hds
  | succ n ih =>
    intro l ds hds
    cases l with
    | nil => simp [findAllSkuFuel] at hds
    | cons c rest =>
      rw [findAllSkuFuel] at hds
      cases hmt : matchSkuAt (c :: rest) with
      | none =>
        rw [hmt] at hds
        exact ih rest ds hds
      | some p =>
        obtain ⟨g, rem⟩ := p
        rw [hmt] at hds
        simp only [List.mem_cons] at hds
        cases hds with
        | inl heq =>
          obtain ⟨_, hne, hdig⟩ := matchSkuAt_sound hmt
          exact heq ▸ ⟨hne, hdig⟩
        | inr hmem => exact ih rem ds hmem

/-! ## Properties of `pyReplace` -/

/-- With enough fuel, `pyReplaceFuel` does not depend on the exact fuel. -/
theorem pyReplaceFuel_congr (pat repl : List Char) :
    ∀ (n m : Nat) (l : List Char), l.length ≤ n → l.length ≤ m →
      pyReplaceFuel pat repl n l = pyReplaceFuel pat repl m l := by
  intro n
  induction n with
  | zero =>
    intro m l hn _
    cases l with
    | nil => cases m <;> rfl
    | cons c rest => simp at hn
  | succ n ih =>
    intro m l hn hm
    cases l with
    | nil => cases m <;> rfl
    | cons c rest =>
      cases m with
      | zero => simp at hm
      | succ m =>
        rw [pyReplaceFuel, pyReplaceFuel]
        by_cases hc : ¬pat.isEmpty ∧ pat.isPrefixOf (c :: rest)
        · rw [if_pos hc, if_pos hc]
          have hplen : 1 ≤ pat.length := by
            cases pat with
            | nil => simp at hc
            | cons _ _ => simp
          have hdl : ((c :: rest).drop pat.length).length = rest.length + 1 - pat.length := by
            simp [List.length_drop]
          rw [ih m ((c :: rest).drop pat.length)
            (by rw [hdl]; simp only [List.length_cons] at hn; omega)
            (by rw [hdl]; simp only [List.length_cons] at hm; omega)]
        · rw [if_neg hc, if_neg hc]
          rw [ih m rest (by simp only [List.length_cons] at hn; omega)
            (by simp only [List.length_cons] at hm; omega)]

/-- Step equation of `pyReplace`. -/
theorem pyReplace_cons (pat repl : List Char) (c : Char) (rest : List Char) :
    pyReplace (c :: rest) pat repl =
      if ¬pat.isEmpty ∧ pat.isPrefixOf (c :: rest) then
        repl ++ pyReplace ((c :: rest).drop pat.length) pat repl
      else c :: pyReplace rest pat repl := by
  unfold pyReplace
  rw [show (c :: rest).length = rest.length + 1 from rfl, pyReplaceFuel]
  by_cases hc : ¬pat.isEmpty ∧ pat.isPrefixOf (c :: rest)
  · rw [if_pos hc, if_pos hc]
    have hplen : 1 ≤ pat.length := by
      cases pat with
      | nil => simp at hc
      | cons _ _ => simp
    have hdl : ((c :: rest).drop pat.length).length = rest.length + 1 - pat.length := by
      simp [List.length_drop]
    congr 1
    exact pyReplaceFuel_congr pat repl rest.length _ _ (by rw [hdl]; omega) (Nat.le_refl _)
  · rw [if_neg hc, if_neg hc]

/-- A substring occurrence in the right part survives prepending. -/
theorem occursB_append_right {pat B : List Char} (A : List Char)
    (h : occursB pat B = true) : occursB pat (A ++ B) = true := by
  induction A with
  | nil => simpa
  | cons a A' ih =>
    rw [List.cons_append, occursB, ih, Bool.or_true]

/-- A pattern occurs in any list starting with it. -/
theorem occursB_self_append (pat B : List Char) : occursB pat (pat ++ B) = true := by
  cases pat with
  | nil =>
    cases B with
    | nil => rfl
    | cons b B' => simp [occursB, List.isPrefixOf]
  | cons p pat' =>
    rw [List.cons_append, occursB]
    have h1 : (p :: pat').isPrefixOf (p :: (pat' ++ B)) = true := by
      rw [← List.cons_append]
      exact List.isPrefixOf_iff_prefix.mpr (List.prefix_append _ _)
    rw [h1, Bool.true_or]

/-- Replacing a pattern that does not occur is the identity. -/
theorem pyReplace_id_of_not_occursB (pat repl : List Char) :
    ∀ (l : List Char), occursB pat l = false → pyReplace l pat repl = l := by
  intro l
  induction l with
  | nil => intro _; rfl
  | cons c rest ih =>
    intro h
    rw [occursB, Bool.or_eq_false_iff] at h
    rw [pyReplace_cons, if_neg (by simp [h.1]), ih h.2]

/-- The scan passes over a prefix in which no match can start. -/
theorem pyReplace_skip {pat repl : List Char} :
    ∀ {A : List Char} (B : List Char),
      (∀ A', A' <:+ A → A' ≠ [] → pat.isPrefixOf (A' ++ B) = false) →
      pyReplace (A ++ B) pat repl = A ++ pyReplace B pat repl := by
  intro A
  induction A with
  | nil => intro B _; rfl
  | cons a A' ih =>
    intro B h
    rw [List.cons_append, pyReplace_cons]
    have hme : pat.isPrefixOf ((a :: A') ++ B) = false :=
      h (a :: A') (List.suffix_refl _) (by simp)
    rw [List.cons_append] at hme
    rw [if_neg (by simp [hme]), ih B (fun A'' hs hne => h A'' (hs.trans (List.suffix_cons a A')) hne),
      List.cons_append]

/-- Whether something is a prefix only depends on an initial fragment of
that length. -/
theorem isPrefixOf_append_take (pat A B : List Char) :
    pat.isPrefixOf (A ++ B) = pat.isPrefixOf (A ++ B.take pat.length) := by
  have htake : (A ++ B).take pat.length = (A ++ B.take pat.length).take pat.length := by
    rw [List.take_append_eq_append_take, List.take_append_eq_append_take, List.take_take,
      Nat.min_eq_left (Nat.sub_le _ _)]
  have h1 : pat.isPrefixOf (A ++ B) = true ↔ pat.isPrefixOf (A ++ B.take pat.length) = true := by
    rw [List.isPrefixOf_iff_prefix, List.isPrefixOf_iff_prefix, List.prefix_iff_eq_take,
      List.prefix_iff_eq_take, ← htake]
  by_cases hx : pat.isPrefixOf (A ++ B) = true
  · rw [hx, (h1.mp hx)]
  · have hy : ¬pat.isPrefixOf (A ++ B.take pat.length) = true := fun hy => hx (h1.mpr hy)
    simp only [Bool.not_eq_true] at hx hy
    rw [hx, hy]

/-- Soundness of `noStartB`. -/
theorem noStartB_sound {pat B : List Char} :
    ∀ {A : List Char}, noStartB pat B A = true →
      ∀ A', A' <:+ A → A' ≠ [] → pat.isPrefixOf (A' ++ B) = false := by
  intro A
  induction A with
  | nil =>
    intro _ A' hs hne
    exact absurd (List.suffix_nil.mp hs) hne
  | cons a A'' ih =>
    intro h A' hs hne
    rw [noStartB, Bool.and_eq_true, Bool.not_eq_true'] at h
    rcases List.suffix_cons_iff.mp hs with heq | hsuf
    · rw [heq]
      rw [List.cons_append] at h
      exact h.1
    · exact ih h.2 A' hsuf hne

/-- Skip lemma with the decidable side condition, which only inspects the
first `pat.length` characters of `B`. -/
theorem pyReplace_skip_start (pat repl A B : List Char)
    (h : noStartB pat (B.take pat.length) A = true) :
    pyReplace (A ++ B) pat repl = A ++ pyReplace B pat repl := by
  apply pyReplace_skip
  intro A' hs hne
  rw [isPrefixOf_append_take]
  exact noStartB_sound h A' hs hne

/-- The scan consumes a match of the pattern at the current position. -/
theorem pyReplace_consume (pat repl B : List Char) (hne : pat ≠ []) :
    pyReplace (pat ++ B) pat repl = repl ++ pyReplace B pat repl := by
  cases pat with
  | nil => exact absurd rfl hne
  | cons p pat' =>
    rw [List.cons_append, pyReplace_cons, if_pos]
    · congr 1
      rw [← List.cons_append, List.drop_left]
    · refine ⟨by simp, ?_⟩
      rw [← List.cons_append]
      exact List.isPrefixOf_iff_prefix.mpr (List.prefix_append _ _)

/-- The scan passes over a run of digits when the pattern contains no
digit. -/
theorem pyReplace_skip_digits (pat repl : List Char)
    (hp : ∀ c ∈ pat, c.isDigit = false) :
    ∀ (S B : List Char), (∀ c ∈ S, c.isDigit = true) →
      pyReplace (S ++ B) pat repl = S ++ pyReplace B pat repl := by
  intro S
  induction S with
  | nil => intro B _; rfl
  | cons s S' ih =>
    intro B hS
    rw [List.cons_append, pyReplace_cons]
    have hnot : ¬(¬pat.isEmpty ∧ pat.isPrefixOf (s :: (S' ++ B))) := by
      rintro ⟨hne, hpre⟩
      cases pat with
      | nil => simp at hne
      | cons p pat' =>
        obtain ⟨t, ht⟩ := List.isPrefixOf_iff_prefix.mp hpre
        rw [List.cons_append] at ht
        injection ht with h1 _
        have hd : s.isDigit = true := hS s (by simp)
        have hnd : p.isDigit = false := hp p (by simp)
        rw [h1, hd] at hnd
        exact absurd hnd (by simp)
    rw [if_neg hnot, ih B (fun c hc => hS c (by simp [hc])), List.cons_append]

/-- The scan passes over a concrete prefix with no pattern occurrence,
then over a nonempty run of digits, when the pattern contains no digit:
a match can neither start inside the prefix (no occurrence, and a match
reaching past it would have to cover the first digit) nor inside the
digit run. -/
theorem pyReplace_skip_occ_digits (pat repl S : List Char)
    (hp : ∀ c ∈ pat, c.isDigit = false)
    (hSne : S ≠ []) (hS : ∀ c ∈ S, c.isDigit = true) :
    ∀ (A B : List Char), occursB pat A = false →
      pyReplace (A ++ (S ++ B)) pat repl = A ++ (S ++ pyReplace B pat repl) := by
  intro A
  induction A with
  | nil =>
    intro B _
    rw [List.nil_append, List.nil_append]
    exact pyReplace_skip_digits pat repl hp S B hS
  | cons a A' ih =>
    intro B hOcc
    rw [occursB, Bool.or_eq_false_iff] at hOcc
    rw [List.cons_append, pyReplace_cons]
    have hnot : ¬(¬pat.isEmpty ∧ pat.isPrefixOf (a :: (A' ++ (S ++ B)))) := by
      rintro ⟨hne, hpre⟩
      have hpre' := List.isPrefixOf_iff_prefix.mp hpre
      rw [← List.cons_append] at hpre'
      have h2 : (a :: A') <+: (a :: A') ++ (S ++ B) := List.prefix_append _ _
      by_cases hlen : pat.length ≤ (a :: A').length
      · have h3 : pat <+: (a :: A') :=
          List.prefix_of_prefix_length_le hpre' h2 hlen
        have h4 : pat.isPrefixOf (a :: A') = true := List.isPrefixOf_iff_prefix.mpr h3
        rw [hOcc.1] at h4
        exact absurd h4 (by simp)
      · push_neg at hlen
        have h3 : (a :: A') <+: pat :=
          List.prefix_of_prefix_length_le h2 hpre' (by omega)
        obtain ⟨r, hr⟩ := h3
        have hrne : r ≠ [] := by
          intro h0
          rw [h0, List.append_nil] at hr
          rw [← hr] at hlen
          simp at hlen
        have h4 : (a :: A') ++ r <+: (a :: A') ++ (S ++ B) := by
          rw [hr]; exact hpre'
        have h5 : r <+: S ++ B := (List.prefix_append_right_inj _).mp h4
        cases S with
        | nil => exact hSne rfl
        | cons s S' =>
          cases r with
          | nil => exact hrne rfl
          | cons r0 r' =>
            obtain ⟨t, ht⟩ := h5
            rw [List.cons_append, List.cons_append] at ht
            injection ht with h1 _
            have hr0mem : r0 ∈ pat := by
              rw [← hr]; simp
            have hnd := hp r0 hr0mem
            rw [h1, hS s (by simp)] at hnd
            exact absurd hnd (by simp)
    rw [if_neg hnot, ih B hOcc.2, List.cons_append]

/-! ## Shape of the filled checkout URLs -/

/-- Characterization of line 96/103: filling the template with a nonempty
digit SKU and a nonempty digit product id substitutes exactly the two
placeholders. -/
theorem fillMain_eq {s p : List Char} (hs : s ≠ []) (hsd : ∀ c ∈ s, c.isDigit = true) :
    fillMain s p = filledUrlNF s p := by
  have hsplit : checkout_url_template =
      templateHead ++ (skuSlot ++ (("&").data ++ (productSlot ++ templateTail))) := by decide
  have hd1 : ∀ c ∈ productSlot, c.isDigit = false := by decide
  unfold fillMain
  rw [hsplit]
  rw [pyReplace_skip_start skuSlot (("sku_id=").data ++ s) templateHead
    (skuSlot ++ (("&").data ++ (productSlot ++ templateTail))) (by decide)]
  rw [pyReplace_consume skuSlot (("sku_id=").data ++ s)
    (("&").data ++ (productSlot ++ templateTail)) (by decide)]
  rw [pyReplace_id_of_not_occursB skuSlot (("sku_id=").data ++ s)
    (("&").data ++ (productSlot ++ templateTail)) (by decide)]
  rw [show templateHead ++ ((("sku_id=").data ++ s) ++ (("&").data ++ (productSlot ++ templateTail)))
      = (templateHead ++ ("sku_id=").data) ++ (s ++ (("&").data ++ (productSlot ++ templateTail)))
    by simp [List.append_assoc]]
  rw [pyReplace_skip_occ_digits productSlot (("product_id=").data ++ p) s hd1 hs hsd
    (templateHead ++ ("sku_id=").data) (("&").data ++ (productSlot ++ templateTail)) (by decide)]
  rw [pyReplace_skip_start productSlot (("product_id=").data ++ p) (("&").data)
    (productSlot ++ templateTail) (by decide)]
  rw [pyReplace_consume productSlot (("product_id=").data ++ p) templateTail (by decide)]
  rw [pyReplace_id_of_not_occursB productSlot (("product_id=").data ++ p) templateTail (by decide)]
  rw [show filledUrlNF s p = templateHead ++ (("sku_id=").data ++
      (s ++ ((("&").data ++ ("product_id=").data) ++ (p ++ templateTail))))
    from rfl]
  simp [List.append_assoc]

/-- Characterization of lines 115/135: the "Partially Filled Checkout URL"
equals the template filled with the product id in both placeholders. -/
theorem fillFallback_eq {p : List Char} (hp : p ≠ []) (hpd : ∀ c ∈ p, c.isDigit = true) :
    fillFallback p = filledUrlNF p p := by
  have hsplit : checkout_url_template =
      (templateHead ++ (skuSlot ++ ("&").data)) ++ (productSlot ++ templateTail) := by decide
  have hd1 : ∀ c ∈ skuSlot, c.isDigit = false := by decide
  unfold fillFallback
  rw [hsplit]
  rw [pyReplace_skip_start productSlot (("product_id=").data ++ p)
    (templateHead ++ (skuSlot ++ ("&").data)) (productSlot ++ templateTail) (by decide)]
  rw [pyReplace_consume productSlot (("product_id=").data ++ p) templateTail (by decide)]
  rw [pyReplace_id_of_not_occursB productSlot (("product_id=").data ++ p) templateTail (by decide)]
  rw [show (templateHead ++ (skuSlot ++ ("&").data)) ++ ((("product_id=").data ++ p) ++ templateTail)
      = templateHead ++ (skuSlot ++ ((("&product_id=").data) ++ (p ++ templateTail)))
    by rw [show (("&product_id=").data : List Char) = ("&").data ++ ("product_id=").data from rfl]
       simp [List.append_assoc]]
  rw [pyReplace_skip_start skuSlot (("sku_id=").data ++ p) templateHead
    (skuSlot ++ ((("&product_id=").data) ++ (p ++ templateTail)))
    (by rw [List.take_left]; decide)]
  rw [pyReplace_consume skuSlot (("sku_id=").data ++ p)
    ((("&product_id=").data) ++ (p ++ templateTail)) (by decide)]
  rw [pyReplace_skip_occ_digits skuSlot (("sku_id=").data ++ p) p hd1 hp hpd
    (("&product_id=").data) templateTail (by decide)]
  rw [pyReplace_id_of_not_occursB skuSlot (("sku_id=").data ++ p) templateTail (by decide)]
  simp [filledUrlNF, List.append_assoc]

/-! ## Occurrence facts about the URL normal form -/

/-- Any substring of the constant tail occurs in every produced URL. -/
theorem occursB_filledUrlNF_of_tail {pat : List Char} (s p : List Char)
    (h : occursB pat templateTail = true) : occursB pat (filledUrlNF s p) = true := by
  unfold filledUrlNF
  apply occursB_append_right
  apply occursB_append_right
  apply occursB_append_right
  apply occursB_append_right
  apply occursB_append_right
  exact h

/-- `sku_id=<s>` occurs in the normal form filled with SKU `s`. -/
theorem occursB_filledUrlNF_sku (s p : List Char) :
    occursB (("sku_id=").data ++ s) (filledUrlNF s p) = true := by
  unfold filledUrlNF
  apply occursB_append_right
  rw [← List.append_assoc]
  exact occursB_self_append _ _

/-- `product_id=<p>` occurs in the normal form filled with product `p`. -/
theorem occursB_filledUrlNF_product (s p : List Char) :
    occursB (("product_id=").data ++ p) (filledUrlNF s p) = true := by
  unfold filledUrlNF
  apply occursB_append_right
  apply occursB_append_right
  apply occursB_append_right
  rw [show (("&product_id=").data : List Char) = ("&").data ++ ("product_id=").data from rfl,
    List.append_assoc]
  apply occursB_append_right
  rw [← List.append_assoc]
  exact occursB_self_append _ _

/-- Every URL in normal form ends with the constant
`&quantity=1&seller_id=7495316114727995400`. -/
theorem filledUrlNF_eq_append_tail (s p : List Char) :
    filledUrlNF s p =
      (templateHead ++ (("sku_id=").data ++ (s ++ (("&product_id=").data ++ p)))) ++
        templateTail := by
  simp [filledUrlNF, List.append_assoc]

/-! ## Values flowing through the pipeline -/

/-- Truthiness of an optional string. -/
theorem pyTruthy_iff {o : Option (List Char)} :
    pyTruthy o = true ↔ ∃ p, o = some p ∧ p ≠ [] := by
  cases o with
  | none => simp [pyTruthy]
  | some p => simp [pyTruthy, List.isEmpty_iff]

/-- The extracted product id is a nonempty digit string. -/
theorem resolve_product_id_digits {url p : List Char}
    (h : resolve_product_id url = some p) : p ≠ [] ∧ ∀ c ∈ p, c.isDigit = true := by
  unfold resolve_product_id at h
  cases h1 : searchLitDigits (("/product/").data) url with
  | some v =>
    rw [h1] at h
    injection h with h'
    exact h' ▸ searchLitDigits_sound h1
  | none =>
    rw [h1] at h
    exact searchLitDigits_sound h

/-- The URL-supplied SKU id is a nonempty digit string. -/
theorem sku_id_url_digits {url v : List Char}
    (h : sku_id_url url = some v) : v ≠ [] ∧ ∀ c ∈ v, c.isDigit = true :=
  searchLitDigits_sound h

/-- Every member of the resolved SKU list is a nonempty digit string. -/
theorem resolve_sku_ids_digits {url html : List Char} :
    ∀ s ∈ resolve_sku_ids url html, s ≠ [] ∧ ∀ c ∈ s, c.isDigit = true := by
  intro s hs
  unfold resolve_sku_ids at hs
  cases h1 : sku_id_url url with
  | none =>
    rw [h1] at hs
    exact findAllSku_sound s hs
  | some v =>
    rw [h1] at hs
    simp only at hs
    split at hs
    · rw [List.mem_append] at hs
      cases hs with
      | inl h => exact findAllSku_sound s h
      | inr h =>
        rw [List.mem_singleton] at h
        exact h ▸ sku_id_url_digits h1
    · exact findAllSku_sound s hs

/-- The default SKU comes from the URL, from the discovered list, or is
the product id itself. -/
theorem default_sku_cases {us : Option (List Char)} {ss : List (List Char)}
    {pid : Option (List Char)} {d : List Char}
    (h : default_sku us ss pid = some d) : us = some d ∨ d ∈ ss ∨ pid = some d := by
  unfold default_sku at h
  split at h
  · exact Or.inl h
  · cases ss with
    | nil => exact Or.inr (Or.inr h)
    | cons x xs =>
      injection h with h'
      exact Or.inr (Or.inl (by rw [← h']; simp))

/-! ## Branch structure of the two run paths -/

/-- The successful path takes exactly one of three shapes: one URL per
discovered SKU; one URL from the default SKU when the list is empty but
the product id is known; or no URL at all when there is no product id.
The fallback branch of lines 112–119 is unreachable here: with a product
id present, the default SKU is never falsy. -/
theorem runSuccess_cases (f t : List Char) :
    (∃ p, resolve_product_id f = some p ∧ p ≠ [] ∧
      ((resolve_sku_ids f t ≠ [] ∧
        runSuccess f t = ⟨some p, resolve_sku_ids f t,
          some ((resolve_sku_ids f t).map (fun s => fillMain s p)),
          resolve_sku_ids f t,
          ((resolve_sku_ids f t).map (fun s => fillMain s p)).map (fun u => (u, false))⟩) ∨
       (∃ d, resolve_sku_ids f t = [] ∧ default_sku (sku_id_url f) [] (some p) = some d ∧
        d ≠ [] ∧
        runSuccess f t = ⟨some p, [], some [fillMain d p], [], [(fillMain d p, false)]⟩))) ∨
    (pyTruthy (resolve_product_id f) = false ∧
      runSuccess f t =
        ⟨resolve_product_id f, resolve_sku_ids f t, some [], resolve_sku_ids f t, []⟩) := by
  by_cases hP : pyTruthy (resolve_product_id f) = true
  · obtain ⟨p, hp, hpne⟩ := pyTruthy_iff.mp hP
    left
    refine ⟨p, hp, hpne, ?_⟩
    by_cases hS : resolve_sku_ids f t = []
    · right
      have hdt : pyTruthy (default_sku (sku_id_url f) ([] : List (List Char)) (some p)) = true := by
        unfold default_sku
        split
        · rename_i ht
          exact ht
        · simp [pyTruthy, List.isEmpty_iff, hpne]
      obtain ⟨d, hd, hdne⟩ := pyTruthy_iff.mp hdt
      refine ⟨d, hS, hd, hdne, ?_⟩
      simp only [runSuccess]
      rw [hp, hS, hd]
      simp [pyTruthy, List.isEmpty_iff, hpne, hdne]
    · left
      refine ⟨hS, ?_⟩
      simp only [runSuccess]
      rw [hp]
      have hne : (resolve_sku_ids f t).isEmpty = false := by
        simp [List.isEmpty_iff, hS]
      simp [pyTruthy, List.isEmpty_iff, hpne, hne]
  · right
    simp only [Bool.not_eq_true] at hP
    refine ⟨hP, ?_⟩
    simp only [runSuccess]
    simp [hP]

/-- The failure path takes one of two shapes, depending on whether a
product id could be extracted from the resolved URL. -/
theorem runFetchFail_cases (f : List Char) :
    (∃ p, resolve_product_id f = some p ∧ p ≠ [] ∧
      runFetchFail f = ⟨some p,
        if pyTruthy (sku_id_url f) then [(sku_id_url f).getD []] else [],
        some [fillFallback p], [], [(fillFallback p, true)]⟩) ∨
    (pyTruthy (resolve_product_id f) = false ∧
      runFetchFail f = ⟨resolve_product_id f,
        if pyTruthy (sku_id_url f) then [(sku_id_url f).getD []] else [],
        some [], [], []⟩) := by
  by_cases hP : pyTruthy (resolve_product_id f) = true
  · obtain ⟨p, hp, hpne⟩ := pyTruthy_iff.mp hP
    left
    refine ⟨p, hp, hpne, ?_⟩
    simp only [runFetchFail]
    rw [hp]
    simp [pyTruthy, List.isEmpty_iff, hpne]
  · right
    simp only [Bool.not_eq_true] at hP
    refine ⟨hP, ?_⟩
    simp only [runFetchFail]
    simp [hP]

/-- Every URL produced (returned or shown) on the successful path is the
template filled with a nonempty digit SKU and the nonempty digit product
id. -/
theorem runSuccess_urls_NF (f t u : List Char)
    (hu : u ∈ (runSuccess f t).filled_urls.getD [] ∨ ∃ b, (u, b) ∈ (runSuccess f t).shown) :
    ∃ s p, s ≠ [] ∧ (∀ c ∈ s, c.isDigit = true) ∧ p ≠ [] ∧ (∀ c ∈ p, c.isDigit = true) ∧
      u = filledUrlNF s p ∧ (runSuccess f t).product_id = some p := by
  rcases runSuccess_cases f t with ⟨p, hp, hpne, hbr⟩ | ⟨hP, hrec⟩
  · have hpd := (resolve_product_id_digits hp).2
    rcases hbr with ⟨hSne, hrec⟩ | ⟨d, hS0, hd, hdne, hrec⟩
    · rw [hrec] at hu ⊢
      simp only [Option.getD_some] at hu
      have hmem : u ∈ (resolve_sku_ids f t).map (fun s => fillMain s p) := by
        rcases hu with h | ⟨b, hb⟩
        · exact h
        · rw [List.mem_map] at hb
          obtain ⟨x, hx, hxe⟩ := hb
          have he : x = u := congrArg Prod.fst hxe
          rw [← he]
          exact hx
      rw [List.mem_map] at hmem
      obtain ⟨s, hsmem, hse⟩ := hmem
      obtain ⟨hsne, hsd⟩ := resolve_sku_ids_digits s hsmem
      exact ⟨s, p, hsne, hsd, hpne, hpd, by rw [← hse]; exact fillMain_eq hsne hsd, rfl⟩
    · rw [hrec] at hu ⊢
      simp only [Option.getD_some] at hu
      have hue : u = fillMain d p := by
        rcases hu with h | ⟨b, hb⟩
        · rw [List.mem_singleton] at h; exact h
        · rw [List.mem_singleton] at hb
          exact congrArg Prod.fst hb
      have hdd : ∀ c ∈ d, c.isDigit = true := by
        rcases default_sku_cases hd with h | h | h
        · exact (sku_id_url_digits h).2
        · exact absurd h (by simp)
        · injection h with h'
          rw [← h']
          exact hpd
      exact ⟨d, p, hdne, hdd, hpne, hpd, by rw [hue]; exact fillMain_eq hdne hdd, rfl⟩
  · rw [hrec] at hu
    simp only [Option.getD_some] at hu
    rcases hu with h | ⟨b, hb⟩
    · exact absurd h (by simp)
    · exact absurd hb (by simp)

/-- Every URL produced (returned or shown) on the fetch-failure path is
the fallback URL, the template filled with the product id in both
placeholders. -/
theorem runFetchFail_urls_NF (f u : List Char)
    (hu : u ∈ (runFetchFail f).filled_urls.getD [] ∨ ∃ b, (u, b) ∈ (runFetchFail f).shown) :
    ∃ p, p ≠ [] ∧ (∀ c ∈ p, c.isDigit = true) ∧ u = fillFallback p ∧
      u = filledUrlNF p p ∧ (runFetchFail f).product_id = some p := by
  rcases runFetchFail_cases f with ⟨p, hp, hpne, hrec⟩ | ⟨hP, hrec⟩
  · have hpd := (resolve_product_id_digits hp).2
    rw [hrec] at hu ⊢
    simp only [Option.getD_some] at hu
    have hue : u = fillFallback p := by
      rcases hu with h | ⟨b, hb⟩
      · rw [List.mem_singleton] at h; exact h
      · rw [List.mem_singleton] at hb
        exact congrArg Prod.fst hb
    exact ⟨p, hpne, hpd, hue, by rw [hue]; exact fillFallback_eq hpne hpd, rfl⟩
  · rw [hrec] at hu
    simp only [Option.getD_some] at hu
    rcases hu with h | ⟨b, hb⟩
    · exact absurd h (by simp)
    · exact absurd hb (by simp)

/-- A non-crashing run is the empty result (empty input), the fetch-failure
path, or the successful path. -/
theorem run_done_paths (su : List Char) (f1 f2 : Option (List Char)) (out : ResolveOutput)
    (h : extract_and_fill_tiktok_ids su f1 f2 = .done out) :
    out = ⟨none, [], none, [], []⟩ ∨
    (∃ f, f1 = some f ∧ f2 = none ∧ out = runFetchFail f) ∨
    (∃ f t, f1 = some f ∧ f2 = some t ∧ out = runSuccess f t) := by
  unfold extract_and_fill_tiktok_ids at h
  split at h
  · injection h with h'
    exact Or.inl h'.symm
  · cases f1 with
    | none => exact absurd h (by simp)
    | some f =>
      cases f2 with
      | none =>
        injection h with h'
        exact Or.inr (Or.inl ⟨f, rfl, rfl, h'.symm⟩)
      | some t =>
        injection h with h'
        exact Or.inr (Or.inr ⟨f, t, rfl, rfl, h'.symm⟩)

/-- On the successful path no URL is shown under the "Partially Filled"
label. -/
theorem runSuccess_shown_flag (f t : List Char) :
    ∀ e ∈ (runSuccess f t).shown, e.2 = false := by
  intro e he
  rcases runSuccess_cases f t with ⟨p, hp, hpne, hbr⟩ | ⟨hP, hrec⟩
  · rcases hbr with ⟨hSne, hrec⟩ | ⟨d, hS0, hd, hdne, hrec⟩
    · rw [hrec] at he
      simp only at he
      rw [List.mem_map] at he
      obtain ⟨x, _, hxe⟩ := he
      rw [← hxe]
    · rw [hrec] at he
      simp only [List.mem_singleton] at he
      rw [he]
  · rw [hrec] at he
    simp at he

/-- On the fetch-failure path every shown URL carries the "Partially
Filled" label. -/
theorem runFetchFail_shown_flag (f : List Char) :
    ∀ e ∈ (runFetchFail f).shown, e.2 = true := by
  intro e he
  rcases runFetchFail_cases f with ⟨p, hp, hpne, hrec⟩ | ⟨hP, hrec⟩
  · rw [hrec] at he
    simp only [List.mem_singleton] at he
    rw [he]
  · rw [hrec] at he
    simp at he

/-! ## Claim theorems -/

/-- C1 (counterexample): the claim says `resolve_sku_ids` returns a
duplicate-free collection, but on HTML containing the same quoted SKU id
twice the code (`re.findall` without deduplication) returns the value
twice. -/
theorem resolve_sku_ids_duplicate_counterexample :
    resolve_sku_ids (("https://a.example/item").data)
        (("\"sku_id\":\"7\" \"sku_id\":\"7\"").data) = [("7").data, ("7").data] ∧
    ¬(resolve_sku_ids (("https://a.example/item").data)
        (("\"sku_id\":\"7\" \"sku_id\":\"7\"").data)).Nodup := by
  exact ⟨by decide, by decide⟩

/-- C1 (amended): `resolve_sku_ids` returns the list of all quoted-digit
`sku_id` matches of the HTML in first-seen order, with multiplicity, with
the URL-supplied SKU appended last exactly when it is not already
present; the result is empty iff nothing is found in either source, and
it is duplicate-free whenever the HTML matches themselves are pairwise
distinct. -/
theorem resolve_sku_ids_amended :
    (∀ url html, (findAllSku html).Nodup → (resolve_sku_ids url html).Nodup) ∧
    (∀ url html, resolve_sku_ids url html = [] ↔
        findAllSku html = [] ∧ sku_id_url url = none) ∧
    (∀ url html v, sku_id_url url = some v → v ∉ findAllSku html →
        resolve_sku_ids url html = findAllSku html ++ [v]) ∧
    (∀ url html, sku_id_url url = none → resolve_sku_ids url html = findAllSku html) := by
  refine ⟨?_, ?_, ?_, ?_⟩
  · intro url html hnd
    unfold resolve_sku_ids
    cases h1 : sku_id_url url with
    | none => exact hnd
    | some v =>
      simp only
      split
      · rename_i hcond
        rw [List.nodup_append]
        exact ⟨hnd, List.nodup_singleton v, by
          intro a ha hav
          rw [List.mem_singleton] at hav
          exact hcond.2 (hav ▸ ha)⟩
      · exact hnd
  · intro url html
    unfold resolve_sku_ids
    cases h1 : sku_id_url url with
    | none => simp
    | some v =>
      have hvne := (sku_id_url_digits h1).1
      simp only
      split
      · rename_i hcond
        constructor
        · intro h0
          exact absurd h0 (by simp)
        · rintro ⟨-, h2⟩
          simp at h2
      · rename_i hcond
        push_neg at hcond
        have hvmem : v ∈ findAllSku html :=
          hcond (by simp [List.isEmpty_iff, hvne])
        constructor
        · intro h0
          rw [h0] at hvmem
          exact absurd hvmem (by simp)
        · rintro ⟨-, h2⟩
          simp at h2
  · intro url html v h hnotin
    unfold resolve_sku_ids
    rw [h]
    simp only
    rw [if_pos ⟨by simp [List.isEmpty_iff, (sku_id_url_digits h).1], hnotin⟩]
  · intro url html h
    unfold resolve_sku_ids
    rw [h]

/-- Witness for the amended C1 theorem at concrete inputs: one HTML match
`8`, URL SKU `9` appended last, duplicate-free result. -/
theorem resolve_sku_ids_amended_witness :
    (findAllSku (("\"sku_id\":\"8\"").data)).Nodup ∧
    sku_id_url (("https://u.example/p?sku_id=9").data) = some (("9").data) ∧
    (("9").data) ∉ findAllSku (("\"sku_id\":\"8\"").data) ∧
    (resolve_sku_ids (("https://u.example/p?sku_id=9").data)
        (("\"sku_id\":\"8\"").data)).Nodup ∧
    resolve_sku_ids (("https://u.example/p?sku_id=9").data) (("\"sku_id\":\"8\"").data) =
      findAllSku (("\"sku_id\":\"8\"").data) ++ [("9").data] :=
  ⟨by decide, by decide, by decide,
   resolve_sku_ids_amended.1 _ _ (by decide),
   resolve_sku_ids_amended.2.2.1 _ _ (("9").data) (by decide) (by decide)⟩

/-- C2: `default_sku` follows the precedence URL-supplied SKU > first
element of the discovered SKU list > product id: a URL-supplied SKU wins
regardless of the HTML, and when neither the URL nor the HTML yields a
SKU, the product id (when present) is returned. -/
theorem default_sku_precedence :
    (∀ url html pid v, sku_id_url url = some v →
        default_sku (sku_id_url url) (resolve_sku_ids url html) pid = some v) ∧
    (∀ url html p, sku_id_url url = none → findAllSku html = [] →
        default_sku (sku_id_url url) (resolve_sku_ids url html) (some p) = some p) := by
  constructor
  · intro url html pid v h
    have hne := (sku_id_url_digits h).1
    rw [h]
    unfold default_sku
    rw [if_pos (by simp [pyTruthy, List.isEmpty_iff, hne])]
  · intro url html p h1 h2
    have hresolve : resolve_sku_ids url html = [] := by
      unfold resolve_sku_ids
      rw [h1, h2]
    rw [hresolve, h1]
    unfold default_sku
    simp [pyTruthy]

/-- Witness for C2: both precedence branches at concrete inputs. -/
theorem default_sku_precedence_witness :
    sku_id_url (("https://u.example/p?sku_id=9").data) = some (("9").data) ∧
    default_sku (sku_id_url (("https://u.example/p?sku_id=9").data))
      (resolve_sku_ids (("https://u.example/p?sku_id=9").data) (("\"sku_id\":\"8\"").data))
      (some (("5").data)) = some (("9").data) ∧
    (sku_id_url (("https://u.example/p").data) = none ∧
     findAllSku (("no ids here").data) = [] ∧
     default_sku (sku_id_url (("https://u.example/p").data))
       (resolve_sku_ids (("https://u.example/p").data) (("no ids here").data))
       (some (("5").data)) = some (("5").data)) :=
  ⟨by decide,
   default_sku_precedence.1 _ (("\"sku_id\":\"8\"").data) (some (("5").data)) _ (by decide),
   by decide, by decide,
   default_sku_precedence.2 _ _ (("5").data) (by decide) (by decide)⟩

/-- C6 (code bug): when the initial redirect-resolving request raises, the
`except` handler at line 133 reads the local `product_id` before any
assignment, so the run aborts with an `UnboundLocalError` instead of
returning the URL-recoverable identifiers. -/
theorem initial_fetch_failure_crashes (su : List Char) (f2 : Option (List Char))
    (h : su.isEmpty = false) :
    extract_and_fill_tiktok_ids su none f2 =
      .crashed "UnboundLocalError: local variable product_id referenced before assignment" := by
  simp [extract_and_fill_tiktok_ids, h]

/-- Witness for C6 at a concrete input. -/
theorem initial_fetch_failure_crashes_witness :
    (("https://t.example/x").data).isEmpty = false ∧
    extract_and_fill_tiktok_ids (("https://t.example/x").data) none none =
      .crashed "UnboundLocalError: local variable product_id referenced before assignment" :=
  ⟨by decide, initial_fetch_failure_crashes _ none (by decide)⟩

/-- C7: `resolve_product_id` tries the `/product/<digits>` pattern of the
resolved URL first; only if it does not match does it try
`product_id=<digits>`; the first match wins, it returns `none` when
neither matches (second conjunct with a `none` result), and there is no
fallback to the HTML: on both run paths the product id output is
`resolve_product_id` of the resolved URL alone. -/
theorem resolve_product_id_priority :
    (∀ url v, searchLitDigits (("/product/").data) url = some v →
        resolve_product_id url = some v) ∧
    (∀ url, searchLitDigits (("/product/").data) url = none →
        resolve_product_id url = searchLitDigits (("product_id=").data) url) ∧
    (∀ f t, (runSuccess f t).product_id = resolve_product_id f) ∧
    (∀ f, (runFetchFail f).product_id = resolve_product_id f) := by
  refine ⟨?_, ?_, ?_, ?_⟩
  · intro url v h
    unfold resolve_product_id
    rw [h]
  · intro url h
    unfold resolve_product_id
    rw [h]
  · intro f t
    rcases runSuccess_cases f t with ⟨p, hp, _, hbr⟩ | ⟨_, hrec⟩
    · rcases hbr with ⟨_, hrec⟩ | ⟨d, _, _, _, hrec⟩ <;> simp [hrec, hp]
    · simp [hrec]
  · intro f
    rcases runFetchFail_cases f with ⟨p, hp, _, hrec⟩ | ⟨_, hrec⟩
    · simp [hrec, hp]
    · simp [hrec]

/-- Witness for C7: path pattern beats the query parameter; query
parameter used only when the path pattern is absent; `none` when neither
is present. -/
theorem resolve_product_id_priority_witness :
    searchLitDigits (("/product/").data)
        (("https://x.example/product/77?product_id=88").data) = some (("77").data) ∧
    resolve_product_id (("https://x.example/product/77?product_id=88").data) =
      some (("77").data) ∧
    (searchLitDigits (("/product/").data) (("https://x.example/p?product_id=88").data) = none ∧
     resolve_product_id (("https://x.example/p?product_id=88").data) =
       searchLitDigits (("product_id=").data) (("https://x.example/p?product_id=88").data)) :=
  ⟨by decide, resolve_product_id_priority.1 _ _ (by decide),
   by decide, resolve_product_id_priority.2.1 _ (by decide)⟩

/-- C8: the resolver is deterministic and idempotent: it is a pure
function of its inputs, so two runs on identical inputs agree; moreover
for a nonempty input URL the outcome depends only on the fetched data
(the resolved URL and the page text), not on the raw input string. -/
theorem resolver_deterministic :
    (∀ su f1 f2, extract_and_fill_tiktok_ids su f1 f2 = extract_and_fill_tiktok_ids su f1 f2) ∧
    (∀ su su' f1 f2, su.isEmpty = false → su'.isEmpty = false →
        extract_and_fill_tiktok_ids su f1 f2 = extract_and_fill_tiktok_ids su' f1 f2) := by
  refine ⟨fun _ _ _ => rfl, ?_⟩
  intro su su' f1 f2 h h'
  simp [extract_and_fill_tiktok_ids, h, h']

/-- Witness for C8 at concrete inputs. -/
theorem resolver_deterministic_witness :
    (("a").data).isEmpty = false ∧ (("b").data).isEmpty = false ∧
    extract_and_fill_tiktok_ids (("a").data) none none =
      extract_and_fill_tiktok_ids (("b").data) none none :=
  ⟨by decide, by decide, resolver_deterministic.2 _ _ none none (by decide) (by decide)⟩

/-- C3: with a product id `P`, exactly two distinct discovered SKUs
`S1, S2`, and the seller id present (it is a constant of the template),
the resolver produces exactly two checkout URLs, one per SKU, containing
the substitutions `sku_id=S1` / `sku_id=S2` respectively together with
`product_id=P`. -/
theorem two_skus_two_checkout_urls (su f html P S1 S2 : List Char)
    (hsu : su.isEmpty = false)
    (hP : resolve_product_id f = some P)
    (hS : resolve_sku_ids f html = [S1, S2]) (hdist : S1 ≠ S2) :
    extract_and_fill_tiktok_ids su (some f) (some html) =
      .done ⟨some P, [S1, S2], some [fillMain S1 P, fillMain S2 P], [S1, S2],
        [(fillMain S1 P, false), (fillMain S2 P, false)]⟩ ∧
    occursB (("sku_id=").data ++ S1) (fillMain S1 P) = true ∧
    occursB (("product_id=").data ++ P) (fillMain S1 P) = true ∧
    occursB (("sku_id=").data ++ S2) (fillMain S2 P) = true ∧
    occursB (("product_id=").data ++ P) (fillMain S2 P) = true := by
  have hS1mem : S1 ∈ resolve_sku_ids f html := by rw [hS]; simp
  have hS2mem : S2 ∈ resolve_sku_ids f html := by rw [hS]; simp
  obtain ⟨hS1ne, hS1d⟩ := resolve_sku_ids_digits S1 hS1mem
  obtain ⟨hS2ne, hS2d⟩ := resolve_sku_ids_digits S2 hS2mem
  obtain ⟨hPne, hPd⟩ := resolve_product_id_digits hP
  have hrun : extract_and_fill_tiktok_ids su (some f) (some html) =
      .done (runSuccess f html) := by
    simp [extract_and_fill_tiktok_ids, hsu]
  refine ⟨?_, ?_, ?_, ?_, ?_⟩
  · rw [hrun]
    rcases runSuccess_cases f html with ⟨p, hp, hpne, hbr⟩ | ⟨hP', hrec⟩
    · have hpP : p = P := by
        rw [hP] at hp
        injection hp with h'
        exact h'.symm
      subst hpP
      rcases hbr with ⟨hSne, hrec⟩ | ⟨d, hS0, _, _, _⟩
      · rw [hrec, hS]
        rfl
      · rw [hS] at hS0
        exact absurd hS0 (by simp)
    · rw [hP] at hP'
      rw [pyTruthy] at hP'
      simp [List.isEmpty_iff, hPne] at hP'
  · rw [fillMain_eq hS1ne hS1d]
    exact occursB_filledUrlNF_sku S1 P
  · rw [fillMain_eq hS1ne hS1d]
    exact occursB_filledUrlNF_product S1 P
  · rw [fillMain_eq hS2ne hS2d]
    exact occursB_filledUrlNF_sku S2 P
  · rw [fillMain_eq hS2ne hS2d]
    exact occursB_filledUrlNF_product S2 P

/-- Witness for C3 at concrete inputs: product id 12, SKUs 3 and 4. -/
theorem two_skus_two_checkout_urls_witness :
    (("https://x.example/product/12").data).isEmpty = false ∧
    resolve_product_id (("https://x.example/product/12").data) = some (("12").data) ∧
    resolve_sku_ids (("https://x.example/product/12").data)
        (("\"sku_id\":\"3\" \"sku_id\":\"4\"").data) = [("3").data, ("4").data] ∧
    extract_and_fill_tiktok_ids (("https://x.example/product/12").data)
        (some (("https://x.example/product/12").data))
        (some (("\"sku_id\":\"3\" \"sku_id\":\"4\"").data)) =
      .done ⟨some (("12").data), [("3").data, ("4").data],
        some [fillMain (("3").data) (("12").data), fillMain (("4").data) (("12").data)],
        [("3").data, ("4").data],
        [(fillMain (("3").data) (("12").data), false),
         (fillMain (("4").data) (("12").data), false)]⟩ :=
  ⟨by decide, by decide, by decide,
   (two_skus_two_checkout_urls _ _ _ _ _ _ (by decide) (by decide) (by decide) (by decide)).1⟩

/-- C4 (counterexample): the claim says seller resolution tries the
`seller_id=<digits>` query parameter of the URL first, but the code has no
seller resolution at all: with `seller_id=123` in the URL, the produced
checkout URL carries the hardcoded constant and not 123. -/
theorem seller_id_resolution_counterexample :
    extract_and_fill_tiktok_ids (("https://x.example/product/5?seller_id=123").data)
        (some (("https://x.example/product/5?seller_id=123").data)) (some ("").data) =
      .done ⟨some (("5").data), [], some [fillMain (("5").data) (("5").data)], [],
        [(fillMain (("5").data) (("5").data), false)]⟩ ∧
    occursB (("seller_id=123").data) (fillMain (("5").data) (("5").data)) = false ∧
    occursB (("seller_id=7495316114727995400").data)
      (fillMain (("5").data) (("5").data)) = true := by
  exact ⟨by decide, by decide, by decide⟩

/-- C4 (amended): the script performs no seller-id resolution: every
produced checkout URL ends with the constant suffix
`&quantity=1&seller_id=7495316114727995400`, regardless of the URL's
query parameters and of the HTML. -/
theorem seller_id_constant_amended (su : List Char) (f1 f2 : Option (List Char))
    (out : ResolveOutput) (u : List Char)
    (h : extract_and_fill_tiktok_ids su f1 f2 = .done out)
    (hu : u ∈ out.filled_urls.getD []) :
    ∃ v, u = v ++ templateTail := by
  rcases run_done_paths su f1 f2 out h with h0 | ⟨f, -, -, h0⟩ | ⟨f, t, -, -, h0⟩
  · rw [h0] at hu
    exact absurd hu (by simp)
  · subst h0
    obtain ⟨p, -, -, -, hNF, -⟩ := runFetchFail_urls_NF f u (Or.inl hu)
    exact ⟨_, by rw [hNF]; exact filledUrlNF_eq_append_tail p p⟩
  · subst h0
    obtain ⟨s, p, -, -, -, -, hNF, -⟩ := runSuccess_urls_NF f t u (Or.inl hu)
    exact ⟨_, by rw [hNF]; exact filledUrlNF_eq_append_tail s p⟩

/-- Witness for the amended C4 theorem at a concrete input. -/
theorem seller_id_constant_amended_witness :
    extract_and_fill_tiktok_ids (("https://x.example/product/5?seller_id=123").data)
        (some (("https://x.example/product/5?seller_id=123").data)) (some ("").data) =
      .done ⟨some (("5").data), [], some [fillMain (("5").data) (("5").data)], [],
        [(fillMain (("5").data) (("5").data), false)]⟩ ∧
    fillMain (("5").data) (("5").data) ∈
      (some [fillMain (("5").data) (("5").data)] : Option (List (List Char))).getD [] ∧
    ∃ v, fillMain (("5").data) (("5").data) = v ++ templateTail :=
  ⟨by decide, by decide,
   seller_id_constant_amended (("https://x.example/product/5?seller_id=123").data)
     (some (("https://x.example/product/5?seller_id=123").data)) (some ("").data)
     ⟨some (("5").data), [], some [fillMain (("5").data) (("5").data)], [],
       [(fillMain (("5").data) (("5").data), false)]⟩
     (fillMain (("5").data) (("5").data)) (by decide) (by decide)⟩

/-- C5 (counterexample): the claim says a checkout URL is labelled
"partial" iff the seller id is absent, but the seller id is a constant of
the template: with a failing page fetch the run produces a URL labelled
"Partially Filled" that does contain the seller id. -/
theorem partial_flag_counterexample :
    extract_and_fill_tiktok_ids (("https://x.example/product/5").data)
        (some (("https://x.example/product/5").data)) none =
      .done ⟨some (("5").data), [], some [fillFallback (("5").data)], [],
        [(fillFallback (("5").data), true)]⟩ ∧
    occursB (("seller_id=7495316114727995400").data) (fillFallback (("5").data)) = true := by
  exact ⟨by decide, by decide⟩

/-- C5 (amended): a checkout URL is labelled "Partially Filled" iff it was
produced on the page-fetch-failure path (with a product id); on the
successful path nothing is labelled partial, and even partial URLs carry
the hardcoded seller id, so the label never coincides with an absent
seller id. -/
theorem partial_flag_amended :
    (∀ su f t out e, extract_and_fill_tiktok_ids su (some f) (some t) = .done out →
        e ∈ out.shown → e.2 = false) ∧
    (∀ su f out e, extract_and_fill_tiktok_ids su (some f) none = .done out →
        e ∈ out.shown → e.2 = true ∧
          occursB (("seller_id=7495316114727995400").data) e.1 = true) := by
  constructor
  · intro su f t out e h he
    rcases run_done_paths su (some f) (some t) out h with h0 | ⟨f', -, hcon, -⟩ | ⟨f', t', -, -, h0⟩
    · rw [h0] at he
      exact absurd he (by simp)
    · exact absurd hcon (by simp)
    · subst h0
      exact runSuccess_shown_flag f' t' e he
  · intro su f out e h he
    rcases run_done_paths su (some f) none out h with h0 | ⟨f', -, -, h0⟩ | ⟨f', t', -, hcon, -⟩
    · rw [h0] at he
      exact absurd he (by simp)
    · subst h0
      refine ⟨runFetchFail_shown_flag f' e he, ?_⟩
      obtain ⟨p, -, -, -, hNF, -⟩ :=
        runFetchFail_urls_NF f' e.1 (Or.inr ⟨e.2, he⟩)
      rw [hNF]
      exact occursB_filledUrlNF_of_tail p p (by decide)
    · exact absurd hcon (by simp)

/-- Witness for the amended C5 theorem: the fetch-failure side at a
concrete input. -/
theorem partial_flag_amended_witness :
    extract_and_fill_tiktok_ids (("https://x.example/product/5").data)
        (some (("https://x.example/product/5").data)) none =
      .done ⟨some (("5").data), [], some [fillFallback (("5").data)], [],
        [(fillFallback (("5").data), true)]⟩ ∧
    (fillFallback (("5").data), true) ∈
      [(fillFallback (("5").data), true)] ∧
    ((fillFallback (("5").data), true).2 = true ∧
      occursB (("seller_id=7495316114727995400").data)
        (fillFallback (("5").data), true).1 = true) :=
  ⟨by decide, by decide,
   partial_flag_amended.2 (("https://x.example/product/5").data)
     (("https://x.example/product/5").data)
     ⟨some (("5").data), [], some [fillFallback (("5").data)], [],
       [(fillFallback (("5").data), true)]⟩
     (fillFallback (("5").data), true) (by decide) (by decide)⟩

/-- C9: every checkout URL the program produces, complete or partial,
contains the fixed substrings `quantity=1` and
`seller_id=7495316114727995400`: both are constants baked into the
template and never derived from the input. -/
theorem urls_contain_fixed_quantity_and_seller (su : List Char)
    (f1 f2 : Option (List Char)) (out : ResolveOutput) (u : List Char)
    (h : extract_and_fill_tiktok_ids su f1 f2 = .done out)
    (hu : u ∈ out.filled_urls.getD [] ∨ ∃ b, (u, b) ∈ out.shown) :
    occursB (("quantity=1").data) u = true ∧
    occursB (("seller_id=7495316114727995400").data) u = true := by
  rcases run_done_paths su f1 f2 out h with h0 | ⟨f, -, -, h0⟩ | ⟨f, t, -, -, h0⟩
  · rw [h0] at hu
    rcases hu with h1 | ⟨b, h1⟩ <;> exact absurd h1 (by simp)
  · subst h0
    obtain ⟨p, -, -, -, hNF, -⟩ := runFetchFail_urls_NF f u hu
    rw [hNF]
    exact ⟨occursB_filledUrlNF_of_tail p p (by decide),
      occursB_filledUrlNF_of_tail p p (by decide)⟩
  · subst h0
    obtain ⟨s, p, -, -, -, -, hNF, -⟩ := runSuccess_urls_NF f t u hu
    rw [hNF]
    exact ⟨occursB_filledUrlNF_of_tail s p (by decide),
      occursB_filledUrlNF_of_tail s p (by decide)⟩

/-- Witness for C9 at a concrete input. -/
theorem urls_contain_fixed_quantity_and_seller_witness :
    extract_and_fill_tiktok_ids (("https://x.example/product/5").data)
        (some (("https://x.example/product/5").data)) none =
      .done ⟨some (("5").data), [], some [fillFallback (("5").data)], [],
        [(fillFallback (("5").data), true)]⟩ ∧
    (occursB (("quantity=1").data) (fillFallback (("5").data)) = true ∧
     occursB (("seller_id=7495316114727995400").data) (fillFallback (("5").data)) = true) :=
  ⟨by decide,
   urls_contain_fixed_quantity_and_seller (("https://x.example/product/5").data)
     (some (("https://x.example/product/5").data)) none
     ⟨some (("5").data), [], some [fillFallback (("5").data)], [],
       [(fillFallback (("5").data), true)]⟩
     (fillFallback (("5").data)) (by decide) (Or.inl (by decide))⟩

/-- C10: whenever a checkout URL is labelled "Partially Filled" (product
id found but no SKU available, which happens on the fetch-failure path),
the `sku_id` placeholder is filled with the product id, so the URL
contains `sku_id=<product_id>`. -/
theorem partial_url_uses_product_id_as_sku (su : List Char)
    (f1 f2 : Option (List Char)) (out : ResolveOutput) (u : List Char)
    (h : extract_and_fill_tiktok_ids su f1 f2 = .done out)
    (hu : (u, true) ∈ out.shown) :
    ∃ p, out.product_id = some p ∧ u = fillFallback p ∧
      occursB (("sku_id=").data ++ p) u = true := by
  rcases run_done_paths su f1 f2 out h with h0 | ⟨f, -, -, h0⟩ | ⟨f, t, -, -, h0⟩
  · rw [h0] at hu
    exact absurd hu (by simp)
  · subst h0
    obtain ⟨p, -, -, hue, hNF, hprod⟩ :=
      runFetchFail_urls_NF f u (Or.inr ⟨true, hu⟩)
    refine ⟨p, hprod, hue, ?_⟩
    rw [hNF]
    exact occursB_filledUrlNF_sku p p
  · subst h0
    have := runSuccess_shown_flag f t (u, true) hu
    exact absurd this (by simp)

/-- Witness for C10 at a concrete input. -/
theorem partial_url_uses_product_id_as_sku_witness :
    extract_and_fill_tiktok_ids (("https://x.example/product/5").data)
        (some (("https://x.example/product/5").data)) none =
      .done ⟨some (("5").data), [], some [fillFallback (("5").data)], [],
        [(fillFallback (("5").data), true)]⟩ ∧
    (∃ p, (⟨some (("5").data), [], some [fillFallback (("5").data)], [],
        [(fillFallback (("5").data), true)]⟩ : ResolveOutput).product_id = some p ∧
      fillFallback (("5").data) = fillFallback p ∧
      occursB (("sku_id=").data ++ p) (fillFallback (("5").data)) = true) :=
  ⟨by decide,
   partial_url_uses_product_id_as_sku (("https://x.example/product/5").data)
     (some (("https://x.example/product/5").data)) none
     ⟨some (("5").data), [], some [fillFallback (("5").data)], [],
       [(fillFallback (("5").data), true)]⟩
     (fillFallback (("5").data)) (by decide) (by decide)⟩

end TikTokExtractor
